import Mathlib

/-!
Verification of the mp3-metadata conversion script (`convert.py`).

The script scans a directory for `.mp3` files, extracts ID3 metadata
(title, first comment frame, duration) via the mutagen library, and dumps
one YAML mapping per file.  Python dictionaries are embedded as association
lists `List (String × Option String)` so that key insertion order — which
PyYAML preserves with `sort_keys=False` — is part of the model.  Durations
(floating-point seconds) are embedded as rationals; Python `int()` is
truncation toward zero, `//` is `Int.fdiv` and `%` is `Int.fmod`.
-/

namespace Convert

/-- A YAML scalar value of the script: either null (`None`) or a string. -/
abbrev YVal := Option String

/-- A Python dict as the script builds them: keys with values, in insertion
order.  Keys are unique (the script never inserts a key twice without
overwriting). -/
abbrev YRecord := List (String × YVal)

/-- The keys of a record, in insertion order. -/
def keysOf (r : YRecord) : List String := r.map (fun p => p.1)

/-- One entry of the scanned directory, as seen by `os.listdir`:
its name, whether `os.path.isfile` holds for it, and its byte size. -/
structure DirEntry where
  name : String
  isFile : Bool
  size : Nat
deriving DecidableEq

/-- The filesystem state the script observes: whether the input directory
exists (`os.path.exists`) and, if so, its listing in `os.listdir` order. -/
structure FS where
  dirExists : Bool
  entries : List DirEntry
deriving DecidableEq

/-- The dict produced per file by `get_mp3_files`:
`path` (full path), `filename` (display path `/audio/<name>`), `size`. -/
structure FileCandidate where
  path : String
  filename : String
  size : Nat
deriving DecidableEq

/-- Python `str.lower()`: lowercase each character. -/
def pyLower (s : String) : String := String.mk (s.data.map Char.toLower)

/-- Python `s.endswith(t)`: `t` is a suffix of `s`. -/
def pyEndsWith (s t : String) : Bool := t.data.isSuffixOf s.data

/-- `get_mp3_files(directory='audio')` from `convert.py`: if the directory
exists, keep the entries that are regular files whose lowercased name ends
in `.mp3`, and record full path, `/audio/`-prefixed display name, and size;
otherwise return the empty list. -/
def get_mp3_files (fs : FS) (directory : String) : List FileCandidate :=
  if fs.dirExists then
    (fs.entries.filter
        (fun e => e.isFile && pyEndsWith (pyLower e.name) ".mp3")).map
      (fun e =>
        { path := directory ++ "/" ++ e.name,
          filename := "/audio/" ++ e.name,
          size := e.size })
  else []

/-- Python `int()` applied to a rational: truncation toward zero. -/
def pyTrunc (q : ℚ) : ℤ := if 0 ≤ q then ⌊q⌋ else -⌊-q⌋

/-- Python `f"{n:02}"`: decimal rendering zero-padded to width at least 2
(a single digit gets one leading zero; anything wider is unchanged). -/
def pyFormat02 (n : ℤ) : String :=
  if 0 ≤ n ∧ n < 10 then "0" ++ toString n else toString n

/-- `format_duration(seconds)` from `convert.py`: `None` passes through;
otherwise truncate to an integer and render `HH:MM:SS` with Python floor
division and modulus, each component zero-padded to two digits. -/
def format_duration : Option ℚ → Option String
  | none => none
  | some s =>
    let seconds : ℤ := pyTrunc s
    let hours : ℤ := seconds.fdiv 3600
    let minutes : ℤ := (seconds.fmod 3600).fdiv 60
    let secs : ℤ := seconds.fmod 60
    some (pyFormat02 hours ++ ":" ++ pyFormat02 minutes ++ ":" ++ pyFormat02 secs)

/-- The ID3 tag data the script reads: the TIT2 frame's text list when the
frame is present, and the text lists of all COMM frames in order. -/
structure ID3Tag where
  tit2 : Option (List String)
  comm : List (List String)
deriving DecidableEq

/-- The runtime environment of one run: whether mutagen imported, what
decoding a given path yields (`.error` models an exception from `ID3()`,
`MP3()` or the subsequent field accesses; on success, the tag data and the
optional stream duration in seconds), and whether PyYAML imported. -/
structure Env where
  mutagenAvailable : Bool
  decode : String → Except String (ID3Tag × Option ℚ)
  yamlAvailable : Bool

/-- `str(title.text[0]) if title and title.text else None`: the first text
entry of the TIT2 frame, when the frame is present with non-empty text. -/
def titleOf (audio : ID3Tag) : Option String :=
  match audio.tit2 with
  | some (t :: _) => some t
  | _ => none

/-- `comments_frames[0].text[0] if comments_frames and comments_frames[0].text
else None`: the first text entry of the first COMM frame, when both exist. -/
def firstComment (audio : ID3Tag) : Option String :=
  match audio.comm with
  | (c :: _) :: _ => some c
  | _ => none

/-- `str(comments) if comments else None`: the first comment, with the empty
string demoted to null by Python truthiness. -/
def descriptionOf (audio : ID3Tag) : Option String :=
  match firstComment audio with
  | some c => if c = "" then none else some c
  | none => none

/-- `get_title_and_comments(mp3_file)` from `convert.py`.  If mutagen is
missing, an error dict with keys `file, title, comments, duration, error`.
If decoding raises, the same shape with the exception text.  Otherwise a
dict with keys `title, description, duration` holding the extracted title,
first comment, and formatted stream duration. -/
def get_title_and_comments (env : Env) (mp3_file : String) : YRecord :=
  if env.mutagenAvailable = false then
    [("file", some mp3_file), ("title", none), ("comments", none),
     ("duration", none), ("error", some "mutagen not installed")]
  else
    match env.decode mp3_file with
    | .error e =>
      [("file", some mp3_file), ("title", none), ("comments", none),
       ("duration", none), ("error", some e)]
    | .ok (audio, info) =>
      [("title", titleOf audio), ("description", descriptionOf audio),
       ("duration", format_duration info)]

/-- Python `d[k] = v` on a dict: replace the value in place when the key is
present, append the pair otherwise. -/
def setKey (r : YRecord) (k : String) (v : YVal) : YRecord :=
  if r.any (fun p => p.1 == k) then
    r.map (fun p => if p.1 == k then (k, v) else p)
  else r ++ [(k, v)]

/-- Groups of three from the front (used on the reversed digit list, so
groups of three from the right of the number). -/
def chunk3 : List Char → List (List Char)
  | a :: b :: c :: d :: rest => [a, b, c] :: chunk3 (d :: rest)
  | l => [l]

/-- Python `"{:,}".format(n)` for a non-negative integer: decimal digits
with a comma between every group of three, counted from the right. -/
def commaFormat (n : Nat) : String :=
  let ds := (toString n).data
  let groups := (chunk3 ds.reverse).map List.reverse
  String.intercalate "," (groups.reverse.map (fun g => String.mk g))

/-- The body of the main loop for one candidate: take the extractor's dict,
set `file` to the display name (overwriting the error path's `file`) and
`length` to the comma-grouped size. -/
def mergeRecord (fields : YRecord) (info : FileCandidate) : YRecord :=
  setKey (setKey fields "file" (some info.filename))
    "length" (some (commaFormat info.size))

/-- The main loop of `convert.py`: one merged record per scanned candidate
of the default directory `audio`, in scan order. -/
def runProgram (fs : FS) (env : Env) : List YRecord :=
  (get_mp3_files fs "audio").map
    (fun c => mergeRecord (get_title_and_comments env c.path) c)

/-- Rendering of one scalar in the YAML output: null or the literal text. -/
def yamlVal : YVal → String
  | none => "null"
  | some s => s

/-- Modelled from the spec: PyYAML (a third-party library, not part of the
repository) dumps a mapping inside a block sequence as `- k: v` for the
first pair and two-space-indented `k: v` lines for the rest, keys in
insertion order (`sort_keys=False`), characters emitted literally
(`allow_unicode=True`). -/
def yamlRecord : YRecord → String
  | [] => "- \x7b\x7d\n"
  | (k, v) :: rest =>
    "- " ++ k ++ ": " ++ yamlVal v ++ "\n" ++
      String.join (rest.map (fun p => "  " ++ p.1 ++ ": " ++ yamlVal p.2 ++ "\n"))

/-- Modelled from the spec: PyYAML dumps an empty list as the flow sequence
`[]`, and a non-empty list of mappings as the concatenation of their block
renderings. -/
def yamlDump (rs : List YRecord) : String :=
  if rs.isEmpty then "[]\n" else String.join (rs.map yamlRecord)

/-- The observable outcome of a run: contents written to `episodes.yml`
when PyYAML is present, and the single console line. -/
structure ProgramOutput where
  written : Option String
  console : String
deriving DecidableEq

/-- The tail of `convert.py`: dump the records to `episodes.yml` and
confirm, or warn when PyYAML is missing and write nothing. -/
def runOutput (fs : FS) (env : Env) : ProgramOutput :=
  let results := runProgram fs env
  if env.yamlAvailable then
    { written := some (yamlDump results),
      console := "YAML written to episodes.yml" }
  else
    { written := none,
      console := "PyYAML is not installed. Please install it with \x27pip install pyyaml\x27." }

end Convert

namespace Convert

/-! ### Concrete fixtures used by witnesses and counterexamples -/

/-- A run where the mutagen import failed (`ID3 = None`, `MP3 = None`). -/
def envNoMutagen : Env :=
  { mutagenAvailable := false, decode := fun _ => .error "unused",
    yamlAvailable := true }

/-- A run where every decode raises an exception with message `bad header`. -/
def envDecodeError : Env :=
  { mutagenAvailable := true, decode := fun _ => .error "bad header",
    yamlAvailable := true }

/-- A run where every file decodes to an empty tag with no stream info. -/
def envEmptyTag : Env :=
  { mutagenAvailable := true,
    decode := fun _ => .ok ({ tit2 := none, comm := [] }, none),
    yamlAvailable := true }

/-- A run where every file decodes to a tag whose title is `Café`. -/
def envCafe : Env :=
  { mutagenAvailable := true,
    decode := fun _ => .ok ({ tit2 := some ["Café"], comm := [] }, none),
    yamlAvailable := true }

/-- The scenario of the spec: one candidate `episode1.mp3` of 2048 bytes. -/
def fsEpisode : FS :=
  { dirExists := true,
    entries := [{ name := "episode1.mp3", isFile := true, size := 2048 }] }

/-- The spec's filter example: files `a.MP3` and `b.txt` and a subdirectory
named `c.mp3`. -/
def fsMixed : FS :=
  { dirExists := true,
    entries := [{ name := "a.MP3", isFile := true, size := 10 },
                { name := "b.txt", isFile := true, size := 5 },
                { name := "c.mp3", isFile := false, size := 0 }] }

/-- A non-existent input directory. -/
def fsMissing : FS := { dirExists := false, entries := [] }

/-- The record the program actually produces for `episode1.mp3` when the
decoder capability is absent. -/
def episodeRecord : YRecord :=
  [("file", some "/audio/episode1.mp3"), ("title", none), ("comments", none),
   ("duration", none), ("error", some "mutagen not installed"),
   ("length", some "2,048")]

/-- The record the claim expects in that scenario: a present-but-null
`description` key instead of the `comments` key the code writes. -/
def episodeRecordClaimed : YRecord :=
  [("title", none), ("description", none), ("duration", none),
   ("error", some "mutagen not installed"),
   ("file", some "/audio/episode1.mp3"), ("length", some "2,048")]

/-! ### Spec-side definitions (formalised from the claims' own formulas) -/

/-- The real-valued `mod` of the duration claim: `S mod n = S - n * ⌊S/n⌋`,
which lies in `[0, n)` for positive `n`. -/
def ratMod (S n : ℚ) : ℚ := S - n * (⌊S / n⌋ : ℚ)

/-- The duration string exactly as claim C2 words it: `HH:MM:SS` with
`HH = floor(S/3600)`, `MM = floor((S mod 3600)/60)`, `SS = floor(S mod 60)`,
each zero-padded to at least two digits and hours never clamped. -/
def durationSpecFormat (S : ℚ) : String :=
  pyFormat02 ⌊S / 3600⌋ ++ ":" ++ pyFormat02 ⌊ratMod S 3600 / 60⌋ ++ ":" ++
    pyFormat02 ⌊ratMod S 60⌋

/-! ### Helper lemmas -/

/-- Floor of a rational divided by a positive integer is integer division of
its floor. -/
lemma floor_div_int (q : ℚ) (n : ℤ) (hn : 0 < n) : ⌊q / (n : ℚ)⌋ = ⌊q⌋ / n := by
  have hn' : (0:ℚ) < (n:ℚ) := by exact_mod_cast hn
  rw [Int.floor_eq_iff]
  constructor
  · rw [le_div_iff₀ hn']
    have hdm := Int.ediv_add_emod ⌊q⌋ n
    have hr0 : 0 ≤ ⌊q⌋ % n := Int.emod_nonneg _ (by omega)
    have h1 : (n * (⌊q⌋ / n) : ℤ) ≤ ⌊q⌋ := by linarith
    have h1' : ((n : ℚ)) * ((⌊q⌋ / n : ℤ) : ℚ) ≤ ((⌊q⌋ : ℤ) : ℚ) := by
      exact_mod_cast h1
    have h2 : ((⌊q⌋ : ℤ) : ℚ) ≤ q := Int.floor_le q
    nlinarith
  · rw [div_lt_iff₀ hn']
    have hdm := Int.ediv_add_emod ⌊q⌋ n
    have hrlt : ⌊q⌋ % n < n := Int.emod_lt_of_pos _ hn
    have h3 : ⌊q⌋ + 1 ≤ n * (⌊q⌋ / n + 1) := by nlinarith
    have h3' : ((⌊q⌋:ℤ):ℚ) + 1 ≤ (n:ℚ) * (((⌊q⌋ / n : ℤ):ℚ) + 1) := by
      exact_mod_cast h3
    have h4 : q < ((⌊q⌋:ℤ):ℚ) + 1 := Int.lt_floor_add_one q
    nlinarith

/-- On non-negative rationals Python `int()` agrees with the floor. -/
lemma pyTrunc_eq_floor {q : ℚ} (h : 0 ≤ q) : pyTrunc q = ⌊q⌋ := by
  simp [pyTrunc, h]

/-- Floor of the real mod is the integer mod of the floor. -/
lemma floor_ratMod (S : ℚ) (n : ℤ) (hn : 0 < n) :
    ⌊ratMod S (n:ℚ)⌋ = ⌊S⌋ % n := by
  have h1 : ⌊S / (n:ℚ)⌋ = ⌊S⌋ / n := floor_div_int S n hn
  have h2 : ratMod S (n:ℚ) = S - (((n * (⌊S⌋ / n)) : ℤ) : ℚ) := by
    unfold ratMod
    rw [h1]
    push_cast
    ring
  rw [h2, Int.floor_sub_int, Int.emod_def]

/-- The three shapes `get_title_and_comments` can return. -/
lemma gtc_shape (env : Env) (f : String) :
    (env.mutagenAvailable = false ∧
      get_title_and_comments env f
        = [("file", some f), ("title", none), ("comments", none),
           ("duration", none), ("error", some "mutagen not installed")]) ∨
    (∃ e, env.mutagenAvailable = true ∧ env.decode f = .error e ∧
      get_title_and_comments env f
        = [("file", some f), ("title", none), ("comments", none),
           ("duration", none), ("error", some e)]) ∨
    (∃ audio info, env.mutagenAvailable = true ∧
      env.decode f = .ok (audio, info) ∧
      get_title_and_comments env f
        = [("title", titleOf audio), ("description", descriptionOf audio),
           ("duration", format_duration info)]) := by
  by_cases hm : env.mutagenAvailable = false
  · exact Or.inl ⟨hm, by simp [get_title_and_comments, hm]⟩
  · have hm' : env.mutagenAvailable = true := by
      revert hm
      cases env.mutagenAvailable <;> simp
    cases hdec : env.decode f with
    | error e =>
      exact Or.inr (Or.inl ⟨e, hm', rfl,
        by simp [get_title_and_comments, hm', hdec]⟩)
    | ok p =>
      obtain ⟨audio, info⟩ := p
      exact Or.inr (Or.inr ⟨audio, info, hm', rfl,
        by simp [get_title_and_comments, hm', hdec]⟩)

/-- Looking up the `file` and `length` keys after the main loop's merge. -/
lemma mergeRecord_lookup (env : Env) (c : FileCandidate) :
    (mergeRecord (get_title_and_comments env c.path) c).lookup "file"
      = some (some c.filename) ∧
    (mergeRecord (get_title_and_comments env c.path) c).lookup "length"
      = some (some (commaFormat c.size)) := by
  rcases gtc_shape env c.path with ⟨_, h⟩ | ⟨e, _, _, h⟩ | ⟨audio, info, _, _, h⟩ <;>
    simp [h, mergeRecord, setKey, List.lookup]

/-- The key order of every merged record, by extraction outcome. -/
lemma mergeRecord_keys (env : Env) (c : FileCandidate) :
    ((mergeRecord (get_title_and_comments env c.path) c).lookup "error" = none ∧
      keysOf (mergeRecord (get_title_and_comments env c.path) c)
        = ["title", "description", "duration", "file", "length"]) ∨
    ((mergeRecord (get_title_and_comments env c.path) c).lookup "error" ≠ none ∧
      keysOf (mergeRecord (get_title_and_comments env c.path) c)
        = ["file", "title", "comments", "duration", "error", "length"]) := by
  rcases gtc_shape env c.path with ⟨_, h⟩ | ⟨e, _, _, h⟩ | ⟨audio, info, _, _, h⟩
  · exact Or.inr (by simp [h, mergeRecord, setKey, List.lookup, keysOf])
  · exact Or.inr (by simp [h, mergeRecord, setKey, List.lookup, keysOf])
  · exact Or.inl (by simp [h, mergeRecord, setKey, List.lookup, keysOf])

/-! ### Claim theorems -/

/-- Claim C1, counterexample: with the decoder capability absent, the
extraction fails, yet the resulting record has no `description` key at all —
the error path writes the key `comments` — so "title, description, and
duration all null" is false as stated: `description` is absent, not null. -/
theorem spec_C1_cex :
    (get_title_and_comments envNoMutagen "audio/episode1.mp3").lookup "error"
      ≠ none ∧
    (get_title_and_comments envNoMutagen "audio/episode1.mp3").lookup
      "description" = none ∧
    (get_title_and_comments envNoMutagen "audio/episode1.mp3").lookup
      "comments" = some none := by
  decide

/-- Claim C1, amended: for every extraction attempt that fails (decoder
missing or decode exception), the record has `title`, `comments`, and
`duration` all null, `description` absent, and an `error` field present;
a successful extraction's record has exactly the keys `title, description,
duration` and no `error` field, so a record never mixes real metadata with
an error field and a failure record is never partially filled. -/
theorem spec_C1 (env : Env) (f : String) :
    ((get_title_and_comments env f).lookup "error" ≠ none →
      (get_title_and_comments env f).lookup "title" = some none ∧
      (get_title_and_comments env f).lookup "comments" = some none ∧
      (get_title_and_comments env f).lookup "duration" = some none ∧
      (get_title_and_comments env f).lookup "description" = none) ∧
    ((get_title_and_comments env f).lookup "error" = none →
      keysOf (get_title_and_comments env f)
        = ["title", "description", "duration"]) := by
  rcases gtc_shape env f with ⟨_, h⟩ | ⟨e, _, _, h⟩ | ⟨audio, info, _, _, h⟩ <;>
    simp [h, List.lookup, keysOf]

/-- Witness for C1 at the concrete mutagen-missing environment. -/
theorem spec_C1_witness :
    (get_title_and_comments envNoMutagen "audio/episode1.mp3").lookup "title"
      = some none ∧
    (get_title_and_comments envNoMutagen "audio/episode1.mp3").lookup
      "comments" = some none ∧
    (get_title_and_comments envNoMutagen "audio/episode1.mp3").lookup
      "duration" = some none ∧
    (get_title_and_comments envNoMutagen "audio/episode1.mp3").lookup
      "description" = none :=
  (spec_C1 envNoMutagen "audio/episode1.mp3").1 (by decide)

/-- Claim C2: for every non-negative raw seconds value `S`,
`format_duration` returns exactly the claim's formula — `HH:MM:SS` with
`HH = floor(S/3600)` zero-padded to at least 2 digits and never clamped,
`MM = floor((S mod 3600)/60)`, `SS = floor(S mod 60)` — i.e. truncation of
`S`, not rounding. -/
theorem spec_C2 (S : ℚ) (h : 0 ≤ S) :
    format_duration (some S) = some (durationSpecFormat S) := by
  have hm : pyTrunc S = ⌊S⌋ := pyTrunc_eq_floor h
  have e1 : (⌊S⌋).fdiv 3600 = ⌊S / (3600:ℚ)⌋ := by
    rw [Int.fdiv_eq_ediv _ (by norm_num)]
    have h1 := floor_div_int S 3600 (by norm_num)
    rw [show ((3600:ℤ):ℚ) = (3600:ℚ) by norm_num] at h1
    omega
  have e3600 : ⌊ratMod S 3600⌋ = ⌊S⌋ % 3600 := by
    have h1 := floor_ratMod S 3600 (by norm_num)
    rwa [show ((3600:ℤ):ℚ) = (3600:ℚ) by norm_num] at h1
  have e60 : ⌊ratMod S 60⌋ = ⌊S⌋ % 60 := by
    have h1 := floor_ratMod S 60 (by norm_num)
    rwa [show ((60:ℤ):ℚ) = (60:ℚ) by norm_num] at h1
  have e2 : ((⌊S⌋).fmod 3600).fdiv 60 = ⌊ratMod S 3600 / 60⌋ := by
    rw [Int.fmod_eq_emod _ (by norm_num), Int.fdiv_eq_ediv _ (by norm_num)]
    have h2 := floor_div_int (ratMod S 3600) 60 (by norm_num)
    rw [show ((60:ℤ):ℚ) = (60:ℚ) by norm_num] at h2
    rw [h2, e3600]
  have e3 : (⌊S⌋).fmod 60 = ⌊ratMod S 60⌋ := by
    rw [Int.fmod_eq_emod _ (by norm_num), e60]
  simp only [format_duration, durationSpecFormat, hm, e1, e2, e3]

/-- Witness for C2 at the claim's own example `S = 3725.9`, checking the
formatted value is `"01:02:05"` (truncation, not rounding). -/
theorem spec_C2_witness :
    (0:ℚ) ≤ (37259:ℚ)/10 ∧
    format_duration (some ((37259:ℚ)/10))
      = some (durationSpecFormat ((37259:ℚ)/10)) ∧
    format_duration (some ((37259:ℚ)/10)) = some "01:02:05" := by
  refine ⟨by norm_num, spec_C2 _ (by norm_num), ?_⟩
  have h : pyTrunc ((37259:ℚ)/10) = 3725 := by norm_num [pyTrunc]
  simp only [format_duration, h]
  decide

/-- Claim C3: when the TIT2 title frame is absent, or present with an empty
text list, the extracted `title` field of a successfully decoded file is
null. -/
theorem spec_C3 (env : Env) (f : String) (audio : ID3Tag) (info : Option ℚ)
    (hm : env.mutagenAvailable = true)
    (hd : env.decode f = .ok (audio, info))
    (ht : audio.tit2 = none ∨ audio.tit2 = some []) :
    (get_title_and_comments env f).lookup "title" = some none := by
  have h : get_title_and_comments env f
      = [("title", titleOf audio), ("description", descriptionOf audio),
         ("duration", format_duration info)] := by
    simp [get_title_and_comments, hm, hd]
  have htitle : titleOf audio = none := by
    rcases ht with h1 | h1 <;> simp [titleOf, h1]
  simp [h, htitle, List.lookup]

/-- Witness for C3 at a concrete file whose tag has no TIT2 frame. -/
theorem spec_C3_witness :
    (get_title_and_comments envEmptyTag "audio/a.mp3").lookup "title"
      = some none :=
  spec_C3 envEmptyTag "audio/a.mp3" { tit2 := none, comm := [] } none
    rfl rfl (Or.inl rfl)

/-- Claim C4: every run yields exactly one record per scanned candidate,
and when the directory exists the candidates are exactly the entries that
pass the filter (regular file, case-insensitive `.mp3`), regardless of how
many extractions fail. -/
theorem spec_C4 (fs : FS) (env : Env) :
    (runProgram fs env).length = (get_mp3_files fs "audio").length ∧
    (fs.dirExists = true →
      (get_mp3_files fs "audio").length
        = (fs.entries.filter
            (fun e => e.isFile && pyEndsWith (pyLower e.name) ".mp3")).length) := by
  refine ⟨by simp [runProgram], fun h => by simp [get_mp3_files, h]⟩

/-- Witness for C4 at the one-candidate directory with failing extraction. -/
theorem spec_C4_witness :
    (runProgram fsEpisode envNoMutagen).length
      = (get_mp3_files fsEpisode "audio").length ∧
    (get_mp3_files fsEpisode "audio").length
      = (fsEpisode.entries.filter
          (fun e => e.isFile && pyEndsWith (pyLower e.name) ".mp3")).length :=
  ⟨(spec_C4 fsEpisode envNoMutagen).1, (spec_C4 fsEpisode envNoMutagen).2 rfl⟩

/-- Claim C5: an entry becomes a candidate iff the directory exists, the
entry is a regular file, and its lowercased name ends in `.mp3`; and the
spec's example — files `a.MP3`, `b.txt` and a subdirectory `c.mp3` — yields
exactly the candidate for `a.MP3`. -/
theorem spec_C5 :
    (∀ (fs : FS) (dir : String) (c : FileCandidate),
      c ∈ get_mp3_files fs dir ↔
        (fs.dirExists = true ∧ ∃ e, e ∈ fs.entries ∧ e.isFile = true ∧
          pyEndsWith (pyLower e.name) ".mp3" = true ∧
          c = { path := dir ++ "/" ++ e.name,
                filename := "/audio/" ++ e.name, size := e.size })) ∧
    get_mp3_files fsMixed "audio"
      = [{ path := "audio/a.MP3", filename := "/audio/a.MP3", size := 10 }] := by
  constructor
  · intro fs dir c
    unfold get_mp3_files
    by_cases hd : fs.dirExists = true
    · rw [if_pos hd]
      simp only [List.mem_map, List.mem_filter, Bool.and_eq_true, hd, true_and]
      constructor
      · rintro ⟨e, ⟨he, hf, hx⟩, rfl⟩
        exact ⟨e, he, hf, hx, rfl⟩
      · rintro ⟨e, he, hf, hx, rfl⟩
        exact ⟨e, ⟨he, hf, hx⟩, rfl⟩
    · rw [if_neg hd]
      simp [hd]
  · decide

/-- Claim C6: when the input directory does not exist the scanner returns
the empty sequence rather than an error, the run produces zero records, and
(PyYAML being present) the output document is still written, containing the
empty sequence. -/
theorem spec_C6 (fs : FS) (env : Env) (d : String)
    (h : fs.dirExists = false) (hy : env.yamlAvailable = true) :
    get_mp3_files fs d = [] ∧ runProgram fs env = [] ∧
    (runOutput fs env).written = some (yamlDump []) ∧
    (runOutput fs env).written = some "[]\n" := by
  have h1 : ∀ d2 : String, get_mp3_files fs d2 = [] := fun d2 => by
    simp [get_mp3_files, h]
  have h2 : runProgram fs env = [] := by simp [runProgram, h1]
  exact ⟨h1 d, h2, by simp [runOutput, h2, hy, yamlDump],
    by simp [runOutput, h2, hy, yamlDump]⟩

/-- Witness for C6 at a concrete missing directory. -/
theorem spec_C6_witness :
    get_mp3_files fsMissing "audio" = [] ∧
    runProgram fsMissing envEmptyTag = [] ∧
    (runOutput fsMissing envEmptyTag).written = some (yamlDump []) ∧
    (runOutput fsMissing envEmptyTag).written = some "[]\n" :=
  spec_C6 fsMissing envEmptyTag "audio" rfl rfl

/-- Claim C7: for every scanned candidate the merged record's `file` field
is the candidate's display name (superseding whatever the extractor's error
path put there) and its `length` field is the comma-grouped byte size; both
keys are present in every output record; display names are the fixed prefix
`/audio/` plus the original filename; and the grouping examples
`1234567 ↦ 1,234,567` and `999 ↦ 999` hold. -/
theorem spec_C7 :
    (∀ (env : Env) (c : FileCandidate),
      (mergeRecord (get_title_and_comments env c.path) c).lookup "file"
        = some (some c.filename) ∧
      (mergeRecord (get_title_and_comments env c.path) c).lookup "length"
        = some (some (commaFormat c.size))) ∧
    (∀ (fs : FS) (env : Env) (r : YRecord), r ∈ runProgram fs env →
      ∃ c, c ∈ get_mp3_files fs "audio" ∧
        r.lookup "file" = some (some c.filename) ∧
        r.lookup "length" = some (some (commaFormat c.size))) ∧
    (∀ (fs : FS) (dir : String) (c : FileCandidate),
      c ∈ get_mp3_files fs dir → ∃ e, e ∈ fs.entries ∧
        c.filename = "/audio/" ++ e.name) ∧
    commaFormat 1234567 = "1,234,567" ∧ commaFormat 999 = "999" := by
  refine ⟨mergeRecord_lookup, ?_, ?_, by decide, by decide⟩
  · intro fs env r hr
    unfold runProgram at hr
    obtain ⟨c, hc, rfl⟩ := List.mem_map.mp hr
    exact ⟨c, hc, mergeRecord_lookup env c⟩
  · intro fs dir c hc
    unfold get_mp3_files at hc
    by_cases hd : fs.dirExists = true
    · rw [if_pos hd] at hc
      obtain ⟨e, he, rfl⟩ := List.mem_map.mp hc
      exact ⟨e, (List.mem_filter.mp he).1, rfl⟩
    · rw [if_neg hd] at hc
      cases hc

/-- Witness for C7 at the concrete failing-extraction run: the merge
overwrites the error path's `file` with the display name. -/
theorem spec_C7_witness :
    ∃ c, c ∈ get_mp3_files fsEpisode "audio" ∧
      episodeRecord.lookup "file" = some (some c.filename) ∧
      episodeRecord.lookup "length" = some (some (commaFormat c.size)) :=
  spec_C7.2.1 fsEpisode envNoMutagen episodeRecord (by decide)

/-- Claim C8, counterexample: in the failing-extraction run the (only)
record's keys come out as `file, title, comments, duration, error, length`
in the serialized document — not the claimed fixed order `title,
description, duration, file, length, [error]`. -/
theorem spec_C8_cex :
    (runProgram fsEpisode envNoMutagen).map keysOf
      = [["file", "title", "comments", "duration", "error", "length"]] ∧
    (["file", "title", "comments", "duration", "error", "length"]
        : List String)
      ≠ ["title", "description", "duration", "file", "length"] ∧
    (["file", "title", "comments", "duration", "error", "length"]
        : List String)
      ≠ ["title", "description", "duration", "file", "length", "error"] ∧
    (runOutput fsEpisode envNoMutagen).written
      = some "- file: /audio/episode1.mp3\n  title: null\n  comments: null\n  duration: null\n  error: mutagen not installed\n  length: 2,048\n" := by
  decide

/-- Claim C8, amended: successful records' keys appear in the fixed
insertion order `title, description, duration, file, length`; failed
records' keys in the order `file, title, comments, duration, error,
length`; and the (spec-modelled) serializer preserves that insertion order
and emits non-ASCII text such as `Café` literally. -/
theorem spec_C8 :
    (∀ (fs : FS) (env : Env) (r : YRecord), r ∈ runProgram fs env →
      (r.lookup "error" = none ∧
        keysOf r = ["title", "description", "duration", "file", "length"]) ∨
      (r.lookup "error" ≠ none ∧
        keysOf r
          = ["file", "title", "comments", "duration", "error", "length"])) ∧
    (runOutput fsEpisode envCafe).written
      = some "- title: Café\n  description: null\n  duration: null\n  file: /audio/episode1.mp3\n  length: 2,048\n" := by
  constructor
  · intro fs env r hr
    unfold runProgram at hr
    obtain ⟨c, _, rfl⟩ := List.mem_map.mp hr
    exact mergeRecord_keys env c
  · decide

/-- Witness for C8 at the concrete failing-extraction record. -/
theorem spec_C8_witness :
    (episodeRecord.lookup "error" = none ∧
      keysOf episodeRecord
        = ["title", "description", "duration", "file", "length"]) ∨
    (episodeRecord.lookup "error" ≠ none ∧
      keysOf episodeRecord
        = ["file", "title", "comments", "duration", "error", "length"]) :=
  spec_C8.1 fsEpisode envNoMutagen episodeRecord (by decide)

/-- Claim C9, counterexample: in the decoder-absent scenario with the single
candidate `episode1.mp3` of size 2048, the produced record carries a null
`comments` key and no `description` key, so it is not the claimed record
(which has `description: null` and no `comments`). -/
theorem spec_C9_cex :
    runProgram fsEpisode envNoMutagen = [episodeRecord] ∧
    episodeRecord.lookup "description" = none ∧
    episodeRecordClaimed.lookup "description" = some none ∧
    runProgram fsEpisode envNoMutagen ≠ [episodeRecordClaimed] := by
  decide

/-- Claim C9, amended: when the tag-decoding capability is unavailable the
extractor returns immediately for every file with all data fields null and
`error` set to the fixed message `mutagen not installed`, and the
decoder-absent run over the single candidate `episode1.mp3` (size 2048)
yields exactly one record, namely `{file: /audio/episode1.mp3, title: null,
comments: null, duration: null, error: mutagen not installed, length:
2,048}` — with the key `comments` (null) in place of the claimed
`description`. -/
theorem spec_C9 :
    (∀ (env : Env) (f : String), env.mutagenAvailable = false →
      get_title_and_comments env f
        = [("file", some f), ("title", none), ("comments", none),
           ("duration", none), ("error", some "mutagen not installed")]) ∧
    runProgram fsEpisode envNoMutagen = [episodeRecord] ∧
    episodeRecord.lookup "error" = some (some "mutagen not installed") ∧
    episodeRecord.lookup "file" = some (some "/audio/episode1.mp3") ∧
    episodeRecord.lookup "length" = some (some "2,048") ∧
    episodeRecord.lookup "title" = some none ∧
    episodeRecord.lookup "comments" = some none ∧
    episodeRecord.lookup "duration" = some none := by
  exact ⟨fun env f h => by simp [get_title_and_comments, h], by decide⟩

/-- Witness for C9: the universal decoder-absent clause applied at the
concrete environment and the scanned path of `episode1.mp3`. -/
theorem spec_C9_witness :
    get_title_and_comments envNoMutagen "audio/episode1.mp3"
      = [("file", some "audio/episode1.mp3"), ("title", none),
         ("comments", none), ("duration", none),
         ("error", some "mutagen not installed")] :=
  spec_C9.1 envNoMutagen "audio/episode1.mp3" rfl

/-- Claim C10: for every non-negative seconds value `S` the formatted output
decomposes into hours, minutes and seconds with `0 ≤ mm < 60`,
`0 ≤ ss < 60` and `hh*3600 + mm*60 + ss` equal to the truncation of `S`;
`format_duration` maps null to null and never maps a non-null input to
null. -/
theorem spec_C10 (S : ℚ) (h : 0 ≤ S) :
    (∃ hh mm ss : ℤ, 0 ≤ hh ∧ 0 ≤ mm ∧ mm < 60 ∧ 0 ≤ ss ∧ ss < 60 ∧
      hh * 3600 + mm * 60 + ss = pyTrunc S ∧
      format_duration (some S)
        = some (pyFormat02 hh ++ ":" ++ pyFormat02 mm ++ ":" ++
            pyFormat02 ss)) ∧
    format_duration none = none ∧ format_duration (some S) ≠ none := by
  refine ⟨⟨(pyTrunc S).fdiv 3600, ((pyTrunc S).fmod 3600).fdiv 60,
    (pyTrunc S).fmod 60, ?_⟩, rfl, by simp [format_duration]⟩
  have hm : pyTrunc S = ⌊S⌋ := pyTrunc_eq_floor h
  have h0 : 0 ≤ ⌊S⌋ := Int.floor_nonneg.mpr h
  rw [hm, Int.fmod_eq_emod _ (by norm_num : (0:ℤ) ≤ 3600),
    Int.fmod_eq_emod _ (by norm_num : (0:ℤ) ≤ 60),
    Int.fdiv_eq_ediv _ (by norm_num : (0:ℤ) ≤ 3600),
    Int.fdiv_eq_ediv _ (by norm_num : (0:ℤ) ≤ 60)]
  refine ⟨by omega, by omega, by omega, by omega, by omega, by omega, ?_⟩
  simp only [format_duration, hm,
    Int.fmod_eq_emod _ (by norm_num : (0:ℤ) ≤ 3600),
    Int.fmod_eq_emod _ (by norm_num : (0:ℤ) ≤ 60),
    Int.fdiv_eq_ediv _ (by norm_num : (0:ℤ) ≤ 3600),
    Int.fdiv_eq_ediv _ (by norm_num : (0:ℤ) ≤ 60)]

/-- Witness for C10 at `S = 362.5`. -/
theorem spec_C10_witness :
    (∃ hh mm ss : ℤ, 0 ≤ hh ∧ 0 ≤ mm ∧ mm < 60 ∧ 0 ≤ ss ∧ ss < 60 ∧
      hh * 3600 + mm * 60 + ss = pyTrunc ((725:ℚ)/2) ∧
      format_duration (some ((725:ℚ)/2))
        = some (pyFormat02 hh ++ ":" ++ pyFormat02 mm ++ ":" ++
            pyFormat02 ss)) ∧
    format_duration none = none ∧ format_duration (some ((725:ℚ)/2)) ≠ none :=
  spec_C10 ((725:ℚ)/2) (by norm_num)

end Convert
